import Mathlib

/-!
Verification of the request-routing core ("mux") of the easegress HTTP
gateway, `pkg/object/httpserver/mux.go`.

The definitions below are a shallow embedding of that file: structures
mirror the Go structs, the matching functions mirror the Go methods line
by line, and `search` mirrors `muxInstance.search` with the route cache
threaded as explicit state.  Go nil-pointer dereferences are modelled by
an `Except GoPanic` result: calling a method through a nil pointer whose
body dereferences the receiver yields `.error .nilPointerDeref`, while
the nil-guarded helper `allowIP` (which the source defines precisely to
tolerate absent filters) stays total.

External collaborators that are not part of the sources are modelled as
follows, each noted at its definition:
* the `ipfilter` package (`Modelled from the spec:` section 4.1),
* the configuration structs of `spec.go` (`Modelled from the spec:`
  section 3),
* the Go standard library `regexp` engine (abstracted as a pair of
  functions), `net.SplitHostPort`, and the `realip` / `lru.ARCCache`
  third-party packages.
-/

namespace EG

/-- A compiled Go `*regexp.Regexp` (Go standard library, external to the
repository), abstracted to its two operations used by the mux:
`MatchString` and `ReplaceAllString input template`. -/
structure GoRegexp where
  matchString : String → Bool
  replaceAllString : String → String → String

/-- Modelled from the spec: `ipfilter.Spec` of the `ipfilter` package
(section 3/4.1), which is not under the sources: an allow list and a
block list of client addresses.  CIDR containment is abstracted to
membership of the IP string in the list; every input used below names
addresses exactly. -/
structure IPFilterSpec where
  allowIPs : List String
  blockIPs : List String
deriving DecidableEq

/-- Modelled from the spec: the compiled `ipfilter.IPFilter` (section
4.1).  The compiled filter keeps the two lists of its spec. -/
structure IPFilter where
  allowIPs : List String
  blockIPs : List String
deriving DecidableEq

/-- Modelled from the spec: `ipfilter.New` compiles a spec to a filter. -/
def ipfilterNew (s : IPFilterSpec) : IPFilter :=
  { allowIPs := s.allowIPs, blockIPs := s.blockIPs }

/-- Modelled from the spec: `IPFilter.Allow` (section 4.1): if `block`
contains the IP, deny; else if `allow` is nonempty and does not contain
the IP, deny; else allow.  Defined on a present filter: the source
guards absent filters at the call sites that tolerate them (`allowIP`,
below). -/
def IPFilter.Allow (f : IPFilter) (ip : String) : Bool :=
  if f.blockIPs.contains ip then false
  else if !f.allowIPs.isEmpty && !f.allowIPs.contains ip then false
  else true

/-- Modelled from the spec: `ipfilter.IPFilters`, an ordered chain of
filters (section 4.1). -/
structure IPFilters where
  filters : List IPFilter
deriving DecidableEq

/-- Modelled from the spec: a chain allows an IP only if every filter in
the chain allows it (section 4.1). -/
def IPFilters.Allow (c : IPFilters) (ip : String) : Bool :=
  c.filters.all (fun f => f.Allow ip)

/-- Filters of an optional chain; an absent chain has none. -/
def chainFilters : Option IPFilters → List IPFilter
  | none => []
  | some c => c.filters

/-- An optional chain allows an IP when absent or when the chain does. -/
def chainAllow (c : Option IPFilters) (ip : String) : Bool :=
  match c with
  | none => true
  | some c => c.Allow ip

/-- `newIPFilterChain` (mux.go 533-550): concatenate the parent chain's
filters (none when the parent is nil) with the filter compiled from the
child spec when present; return nil when the final filter list is
empty. -/
def newIPFilterChain (parent : Option IPFilters) (child : Option IPFilterSpec) :
    Option IPFilters :=
  let base := match parent with
    | some p => p.filters
    | none => []
  let fs := match child with
    | some s => base ++ [ipfilterNew s]
    | none => base
  if fs.isEmpty then none else some { filters := fs }

/-- `newIPFilter` (mux.go 552-558): nil spec compiles to nil filter. -/
def newIPFilter (s : Option IPFilterSpec) : Option IPFilter :=
  s.map ipfilterNew

/-- `allowIP` (mux.go 560-566): the nil-tolerant wrapper around
`IPFilter.Allow`; an absent filter allows everything. -/
def allowIP (f : Option IPFilter) (ip : String) : Bool :=
  match f with
  | none => true
  | some f => f.Allow ip

/-- Modelled from the spec: the compiled header predicate `Header` of
`spec.go` (section 3), which is not under the sources, as used by
`MuxPath.matchHeaders`: key, literal values, and the regular expression
compiled by `initHeaderRoute` (`none` when the `regexp` field is
empty). -/
structure Header where
  key : String
  values : List String
  regexp : Option GoRegexp

/-- Modelled from the spec: the configuration struct `Path` of `spec.go`
(section 3), which is not under the sources.  `pathRegexp` is carried as
the already-compiled Go regex (`none` for an empty pattern). -/
structure Path where
  path : String
  pathPrefix : String
  pathRegexp : Option GoRegexp
  methods : List String
  rewriteTarget : String
  backend : String
  headers : List Header
  matchAllHeader : Bool
  ipFilter : Option IPFilterSpec

/-- Modelled from the spec: the configuration struct `Rule` of `spec.go`
(section 3). -/
structure Rule where
  host : String
  hostRegexp : Option GoRegexp
  ipFilter : Option IPFilterSpec
  paths : List Path

/-- Modelled from the spec: the `HTTPServer` spec fields read by
`reload` (section 3): the server-level ip filter, the cache size, and
the ordered host rules. -/
structure Spec where
  ipFilter : Option IPFilterSpec
  cacheSize : Nat
  rules : List Rule

/-- `MuxPath` (mux.go 505-517). -/
structure MuxPath where
  ipFilter : Option IPFilter
  ipFilterChain : Option IPFilters
  path : String
  pathPrefix : String
  pathRE : Option GoRegexp
  methods : List String
  rewriteTarget : String
  backend : String
  headers : List Header

/-- `muxRule` (mux.go 494-502). -/
structure MuxRule where
  ipFilter : Option IPFilter
  ipFilterChain : Option IPFilters
  host : String
  hostRE : Option GoRegexp
  paths : List MuxPath

/-- `newMuxPath` (mux.go 629-658).  Note that the compiled path keeps no
trace of the spec's `matchAllHeader` field. -/
def newMuxPath (parent : Option IPFilters) (p : Path) : MuxPath :=
  { ipFilter := newIPFilter p.ipFilter,
    ipFilterChain := newIPFilterChain parent p.ipFilter,
    path := p.path,
    pathPrefix := p.pathPrefix,
    pathRE := p.pathRegexp,
    methods := p.methods,
    rewriteTarget := p.rewriteTarget,
    backend := p.backend,
    headers := p.headers }

/-- `newMuxRule` (mux.go 585-607). -/
def newMuxRule (parent : Option IPFilters) (r : Rule) (paths : List MuxPath) :
    MuxRule :=
  { ipFilter := newIPFilter r.ipFilter,
    ipFilterChain := newIPFilterChain parent r.ipFilter,
    host := r.host,
    hostRE := r.hostRegexp,
    paths := paths }

/-- An HTTP request as read by the matcher: `req.Host`, `req.Method`,
`req.URL.Path`, the header map, and the client IP as computed by the
external `realip.FromRequest` (third-party package, abstracted to a
field). -/
structure Request where
  host : String
  method : String
  urlPath : String
  headers : List (String × String)
  realIP : String

/-- `http.Header.Get`: the first value stored for a key, or the empty
string (Go standard library; key canonicalisation is not modelled, the
inputs below use one spelling per key). -/
def headerGet (hs : List (String × String)) (k : String) : String :=
  match hs.find? (fun kv => kv.1 == k) with
  | some kv => kv.2
  | none => ""

/-- The use of Go's `net.SplitHostPort` in `muxRule.match` (mux.go
614-617): when the host parses as `host:port` the port is dropped,
otherwise the host is used unchanged.  Only the single-colon form is
modelled (no claim uses bracketed IPv6 hosts). -/
def splitHostPort (h : String) : String :=
  let cs := h.toList
  if (cs.filter (fun c => c = ':')).length = 1 then
    String.mk (cs.takeWhile (fun c => c ≠ ':'))
  else h

/-- Go's `strings.HasPrefix` (standard library), on the underlying
character lists. -/
def strHasPrefix (s p : String) : Bool :=
  p.toList.isPrefixOf s.toList

/-- `muxRule.match` (mux.go 609-627): a rule with neither literal host
nor compiled regex matches every host; otherwise the port-stripped
request host must equal the literal host or match the regex. -/
def MuxRule.matchReq (mr : MuxRule) (req : Request) : Bool :=
  if mr.host == "" && mr.hostRE.isNone then true
  else
    let host := splitHostPort req.host
    if mr.host != "" && mr.host == host then true
    else match mr.hostRE with
      | some re => re.matchString host
      | none => false

/-- `MuxPath.matchPath` (mux.go 660-677). -/
def MuxPath.matchPath (mp : MuxPath) (req : Request) : Bool :=
  if mp.path == "" && mp.pathPrefix == "" && mp.pathRE.isNone then true
  else
    let path := req.urlPath
    if mp.path != "" && mp.path == path then true
    else if mp.pathPrefix != "" && strHasPrefix path mp.pathPrefix then true
    else match mp.pathRE with
      | some re => re.matchString path
      | none => false

/-- `MuxPath.matchMethod` (mux.go 679-685). -/
def MuxPath.matchMethod (mp : MuxPath) (req : Request) : Bool :=
  if mp.methods.isEmpty then true
  else mp.methods.contains req.method

/-- `MuxPath.matchHeaders` (mux.go 687-700): scan the predicates in
order; one matches when the request's header value for its key is among
its literal values, or its regex is set and matches that value.  An
empty predicate list makes the loop fall through to `false`. -/
def MuxPath.matchHeaders (mp : MuxPath) (req : Request) : Bool :=
  mp.headers.any (fun h =>
    let v := headerGet req.headers h.key
    h.values.contains v ||
      (match h.regexp with
        | some re => re.matchString v
        | none => false))

/-- `route` (mux.go 519-522): a verdict; `path` is set only on OK. -/
structure Route where
  code : Nat
  path : Option MuxPath

/-- The `notFound` singleton (mux.go 526). -/
def notFound : Route := { code := 404, path := none }

/-- The `forbidden` singleton (mux.go 527). -/
def forbidden : Route := { code := 403, path := none }

/-- The `methodNotAllowed` singleton (mux.go 528). -/
def methodNotAllowed : Route := { code := 405, path := none }

/-- The `badRequest` singleton (mux.go 529). -/
def badRequest : Route := { code := 400, path := none }

/-- The route cache (`lru.ARCCache`, third-party, abstracted): an
association list from string keys to routes, newest entry first;
bounded eviction is not modelled (no claim below depends on it). -/
abbrev Cache := List (String × Route)

/-- `muxInstance` (mux.go 477-492), restricted to the fields the matcher
reads; `cacheEnabled` models `mi.cache != nil`. -/
structure MuxInstance where
  ipFilter : Option IPFilter
  ipFilterChan : Option IPFilters
  cacheEnabled : Bool
  rules : List MuxRule

/-- The cache key `req.Host + req.Method + req.URL.Path` built with
`stringtool.Cat` (mux.go 570 and 580): plain string concatenation with
no separator. -/
def cacheKey (req : Request) : String :=
  req.host ++ req.method ++ req.urlPath

/-- `muxInstance.getCacheRoute` (mux.go 568-576). -/
def getCacheRoute (mi : MuxInstance) (cache : Cache) (req : Request) :
    Option Route :=
  if mi.cacheEnabled then
    (cache.find? (fun kv => kv.1 == cacheKey req)).map (fun kv => kv.2)
  else none

/-- `muxInstance.putRouteToCache` (mux.go 578-583): `ARCCache.Add`
stores under the key, superseding any previous entry (modelled by
consing, with lookups taking the newest entry). -/
def putRouteToCache (mi : MuxInstance) (cache : Cache) (req : Request)
    (r : Route) : Cache :=
  if mi.cacheEnabled then (cacheKey req, r) :: cache else cache

/-- The reload loop of `mux.reload` (mux.go 741-775): compile the spec
into a fresh instance, building the filter chains top-down. -/
def reloadRules (spec : Spec) : MuxInstance :=
  let chain := newIPFilterChain none spec.ipFilter
  { ipFilter := newIPFilter spec.ipFilter,
    ipFilterChan := chain,
    cacheEnabled := spec.cacheSize > 0,
    rules := spec.rules.map (fun r =>
      let ruleChain := newIPFilterChain chain r.ipFilter
      newMuxRule chain r (r.paths.map (fun p => newMuxPath ruleChain p))) }

/-- A Go runtime panic reached by the embedded code. -/
inductive GoPanic where
  | nilPointerDeref
deriving DecidableEq

/-- The early-exit structure of the rule/path scan inside
`muxInstance.search`: `.inl` is a `return` out of the loops carrying the
returned (possibly nil) route pointer and the cache; `.inr` is falling
through with the current `headerMismatch`/`methodMismatch` flags, the
current value of the route variable `r`, and the cache. -/
abbrev ScanState := (Option Route × Cache) ⊕ (Bool × Bool × Option Route × Cache)

/-- The caching step of the path loop (mux.go 946-950): when the path
has no header predicates, the OK route for it is built, stored in the
cache, and assigned to the loop's route variable `r`; otherwise `r` and
the cache are left as they are. -/
def cacheStep (mi : MuxInstance) (req : Request) (p : MuxPath)
    (r : Option Route) (cache : Cache) : Option Route × Cache :=
  if p.headers.isEmpty then
    (some { code := 200, path := some p },
      putRouteToCache mi cache req { code := 200, path := some p })
  else (r, cache)

/-- The inner path loop of `muxInstance.search` (mux.go 936-962),
iterating over a rule's paths with the flags, the route variable `r`
and the cache threaded through.  A path whose predicates lead to
`return r` returns whatever `r` currently holds - `none` when no
header-free path assigned it before. -/
def scanPaths (mi : MuxInstance) (req : Request) (ip : String) :
    List MuxPath → Bool → Bool → Option Route → Cache →
    Except GoPanic ScanState
  | [], hm, mm, r, cache => .ok (.inr (hm, mm, r, cache))
  | p :: rest, hm, mm, r, cache =>
    if !p.matchPath req then
      scanPaths mi req ip rest hm mm r cache
    else if !p.matchMethod req then
      scanPaths mi req ip rest hm true r cache
    else if !p.matchHeaders req then
      scanPaths mi req ip rest true mm
        (cacheStep mi req p r cache).1 (cacheStep mi req p r cache).2
    else if !allowIP p.ipFilter ip then
      .ok (.inl (some forbidden, (cacheStep mi req p r cache).2))
    else
      .ok (.inl ((cacheStep mi req p r cache).1, (cacheStep mi req p r cache).2))

/-- The outer rule loop of `muxInstance.search` (mux.go 927-963).  The
rule-level IP gate is the unguarded `host.ipFilter.Allow(ip)` of
mux.go 932: on a rule without its own ip filter the receiver is nil and
the call dereferences it. -/
def scanRules (mi : MuxInstance) (req : Request) (ip : String) :
    List MuxRule → Bool → Bool → Option Route → Cache →
    Except GoPanic ScanState
  | [], hm, mm, r, cache => .ok (.inr (hm, mm, r, cache))
  | rule :: rest, hm, mm, r, cache =>
    if !rule.matchReq req then
      scanRules mi req ip rest hm mm r cache
    else
      match rule.ipFilter with
      | none => .error .nilPointerDeref
      | some f =>
        if !f.Allow ip then .ok (.inl (some forbidden, cache))
        else
          match scanPaths mi req ip rule.paths hm mm r cache with
          | .error e => .error e
          | .ok (.inl out) => .ok (.inl out)
          | .ok (.inr (hm', mm', r', cache')) =>
            scanRules mi req ip rest hm' mm' r' cache'

/-- `muxInstance.search` (mux.go 901-976) with the cache threaded as
state.  The cache-hit branch mirrors mux.go 909-921: terminal verdicts
are returned unchanged; a stored OK route whose path has a nil
`ipFilterChain` is returned without an IP check; otherwise the code
consults `r.path.ipFilter.Allow(ip)` - the path's own filter, an
unguarded call that dereferences nil when the path has no own filter -
and returns the route or `forbidden`.  The result `Option Route` is the
returned `*route` pointer, which `return r` can leave nil. -/
def search (mi : MuxInstance) (cache : Cache) (req : Request) :
    Except GoPanic (Option Route × Cache) :=
  match getCacheRoute mi cache req with
  | some r =>
    if r.code ≠ 200 then .ok (some r, cache)
    else
      match r.path with
      | none => .error .nilPointerDeref
      | some p =>
        if p.ipFilterChain.isNone then .ok (some r, cache)
        else
          match p.ipFilter with
          | none => .error .nilPointerDeref
          | some f =>
            if f.Allow req.realIP then .ok (some r, cache)
            else .ok (some forbidden, cache)
  | none =>
    if !allowIP mi.ipFilter req.realIP then .ok (some forbidden, cache)
    else
      match scanRules mi req req.realIP mi.rules false false none cache with
      | .error e => .error e
      | .ok (.inl (r, cache')) => .ok (r, cache')
      | .ok (.inr (hm, mm, _, cache')) =>
        if hm then .ok (some badRequest, cache')
        else if mm then
          .ok (some methodNotAllowed, putRouteToCache mi cache' req methodNotAllowed)
        else
          .ok (some notFound, putRouteToCache mi cache' req notFound)

/-- The status code of the route returned by `search`, for stating
results without comparing routes that embed regex functions. -/
def searchCode (mi : MuxInstance) (cache : Cache) (req : Request) :
    Except GoPanic (Option Nat) :=
  (search mi cache req).map (fun rc => rc.1.map Route.code)

/-- The backend of the path referenced by the route `search` returns. -/
def searchBackend (mi : MuxInstance) (cache : Cache) (req : Request) :
    Except GoPanic (Option String) :=
  (search mi cache req).map (fun rc => (rc.1.bind Route.path).map MuxPath.backend)

/-- Status codes of two consecutive `search` calls on the same request,
the second seeing the cache the first produced. -/
def twoSearchCodes (mi : MuxInstance) (cache : Cache) (req : Request) :
    Except GoPanic (Option Nat × Option Nat) :=
  match search mi cache req with
  | .error e => .error e
  | .ok (r1, c1) =>
    match search mi c1 req with
    | .error e => .error e
    | .ok (r2, _) => .ok (r1.map Route.code, r2.map Route.code)

/-- The rewrite step of `muxInstance.serveHTTP` (mux.go 861-865): the
request path is replaced by the regex substitution exactly when the
matched path holds both a compiled `pathRE` and a nonempty
`rewriteTarget`; otherwise it is left unchanged. -/
def rewrittenPath (p : MuxPath) (s : String) : String :=
  if p.pathRE.isSome && p.rewriteTarget != "" then
    match p.pathRE with
    | some re => re.replaceAllString s p.rewriteTarget
    | none => s
  else s

/-- Outcome of the dispatch around `search` in `muxInstance.serveHTTP`:
either a short-circuit status written to the client, or a handoff to a
backend handler with the (possibly rewritten) final request path. -/
inductive DispatchOutcome where
  | status (code : Nat)
  | handoff (backend : String) (finalPath : String)
deriving DecidableEq

/-- `muxInstance.serveHTTP` (mux.go 847-865) up to the handoff:
dereference the route returned by `search` (`route.code`, mux.go 848 -
a nil route panics), write terminal codes, resolve the backend
(`ServiceUnavailable` when absent), and apply the rewrite step.
`handlers` is the set of registered backend names of the external
`muxMapper`. -/
def dispatch (mi : MuxInstance) (cache : Cache) (handlers : List String)
    (req : Request) : Except GoPanic DispatchOutcome :=
  match search mi cache req with
  | .error e => .error e
  | .ok (none, _) => .error .nilPointerDeref
  | .ok (some r, _) =>
    if r.code ≠ 200 then .ok (.status r.code)
    else
      match r.path with
      | none => .error .nilPointerDeref
      | some p =>
        if !handlers.contains p.backend then .ok (.status 503)
        else .ok (.handoff p.backend (rewrittenPath p req.urlPath))

/-- `search` on `req1` from an empty cache, then `dispatch` of `req2`
against the cache the first call left behind. -/
def dispatchAfter (mi : MuxInstance) (handlers : List String)
    (req1 req2 : Request) : Except GoPanic DispatchOutcome :=
  match search mi [] req1 with
  | .error e => .error e
  | .ok (_, c1) => dispatch mi c1 handlers req2

/-- `search` on `req1` from an empty cache, then the status code of a
second `search` on `req2` against the resulting cache. -/
def searchAfterCode (mi : MuxInstance) (req1 req2 : Request) :
    Except GoPanic (Option Nat) :=
  match search mi [] req1 with
  | .error e => .error e
  | .ok (_, c1) => searchCode mi c1 req2

/-! ### Concrete instances used to evaluate the code -/

/-- An ip filter spec with empty lists: it allows every address. -/
def allowAll : IPFilterSpec := { allowIPs := [], blockIPs := [] }

/-- A configuration `Path` with every optional field absent, for
building concrete paths by field update. -/
def basePath : Path :=
  { path := "", pathPrefix := "", pathRegexp := none, methods := [],
    rewriteTarget := "", backend := "", headers := [], matchAllHeader := false,
    ipFilter := none }

/-- The spec of claim C1: one rule for host `www.megaease.com` holding
the single unconstrained path `/abc` with backend `abc-pipeline`. -/
def specC1 : Spec :=
  { ipFilter := none, cacheSize := 100,
    rules := [{ host := "www.megaease.com", hostRegexp := none, ipFilter := none,
                paths := [{ basePath with path := "/abc", backend := "abc-pipeline" }] }] }

/-- The same spec with an explicit allow-everything rule-level filter,
so that the rule-level IP gate of mux.go 932 has a receiver. -/
def specC1Guarded : Spec :=
  { ipFilter := none, cacheSize := 100,
    rules := [{ host := "www.megaease.com", hostRegexp := none, ipFilter := some allowAll,
                paths := [{ basePath with path := "/abc", backend := "abc-pipeline" }] }] }

/-- `GET http://www.megaease.com:8080/abc`. -/
def reqC1 : Request :=
  { host := "www.megaease.com:8080", method := "GET", urlPath := "/abc",
    headers := [], realIP := "10.0.0.1" }

/-- Spec for C2/C9: rule and path both carry allow-everything filters,
so no unguarded `Allow` call meets a nil receiver; the path `/abc` has
no header predicates. -/
def specC2 : Spec :=
  { ipFilter := none, cacheSize := 100,
    rules := [{ host := "www.megaease.com", hostRegexp := none, ipFilter := some allowAll,
                paths := [{ basePath with
                            path := "/abc", backend := "abc-pipeline",
                            ipFilter := some allowAll }] }] }

/-- `GET http://www.megaease.com/abc` from 192.168.1.4. -/
def reqC2 : Request :=
  { host := "www.megaease.com", method := "GET", urlPath := "/abc",
    headers := [], realIP := "192.168.1.4" }

/-- Spec for C3: the rule blocks 9.9.9.9, the path `/abc` itself allows
everyone, so the path's inherited chain denies 9.9.9.9 while the path's
own filter does not. -/
def specC3 : Spec :=
  { ipFilter := none, cacheSize := 100,
    rules := [{ host := "h", hostRegexp := none,
                ipFilter := some { allowIPs := [], blockIPs := ["9.9.9.9"] },
                paths := [{ basePath with
                            path := "/abc", backend := "b",
                            ipFilter := some allowAll }] }] }

/-- `GET http://h/abc` from the unblocked address 1.1.1.1. -/
def reqC3a : Request :=
  { host := "h", method := "GET", urlPath := "/abc", headers := [], realIP := "1.1.1.1" }

/-- `GET http://h/abc` from the rule-blocked address 9.9.9.9. -/
def reqC3b : Request :=
  { host := "h", method := "GET", urlPath := "/abc", headers := [], realIP := "9.9.9.9" }

/-- The rule-level filter chain `specC3` compiles for its single rule,
and hence the chain inherited by its path. -/
def ruleChainC3 : Option IPFilters :=
  newIPFilterChain (newIPFilterChain none none)
    (some { allowIPs := [], blockIPs := ["9.9.9.9"] })

/-- The compiled `/abc` path of `specC3`. -/
def pathC3 : MuxPath :=
  newMuxPath ruleChainC3 { basePath with
                           path := "/abc", backend := "b",
                           ipFilter := some allowAll }

/-- Spec for C4, first failure: a host-wildcard rule with no rule-level
ip filter. -/
def specC4a : Spec :=
  { ipFilter := none, cacheSize := 0,
    rules := [{ host := "", hostRegexp := none, ipFilter := none,
                paths := [{ basePath with path := "/p", backend := "b" }] }] }

/-- Spec for C4, second failure: the only matching path carries a header
predicate that the request satisfies, and no header-free sibling
precedes it. -/
def specC4b : Spec :=
  { ipFilter := none, cacheSize := 0,
    rules := [{ host := "", hostRegexp := none, ipFilter := some allowAll,
                paths := [{ basePath with
                            path := "/p", backend := "b",
                            headers := [{ key := "K", values := ["v"], regexp := none }] }] }] }

/-- `GET /p` with header `K: v`. -/
def reqC4 : Request :=
  { host := "x", method := "GET", urlPath := "/p",
    headers := [("K", "v")], realIP := "1.1.1.1" }

/-- Spec for C6: two sibling paths for `/abc`; the first is header-free
but only allows 7.7.7.7, the second requires header `X-T: v` and allows
everyone. -/
def specC6 : Spec :=
  { ipFilter := none, cacheSize := 100,
    rules := [{ host := "", hostRegexp := none, ipFilter := some allowAll,
                paths := [{ basePath with
                            path := "/abc", backend := "p1",
                            ipFilter := some { allowIPs := ["7.7.7.7"], blockIPs := [] } },
                          { basePath with
                            path := "/abc", backend := "p2",
                            headers := [{ key := "X-T", values := ["v"], regexp := none }] }] }] }

/-- `GET /abc` with header `X-T: v` from 1.2.3.4 (not 7.7.7.7). -/
def reqC6 : Request :=
  { host := "h", method := "GET", urlPath := "/abc",
    headers := [("X-T", "v")], realIP := "1.2.3.4" }

/-- The configuration path of claim C7 with `match_all_header = true`:
two header predicates, `X-Test ∈ {test1, test2}` and `AllMatch ∈ {true}`. -/
def pathSpecC7 : Path :=
  { basePath with
    path := "/headerAllMatch", methods := ["GET"], backend := "123-pipeline",
    headers := [{ key := "X-Test", values := ["test1", "test2"], regexp := none },
                { key := "AllMatch", values := ["true"], regexp := none }],
    matchAllHeader := true }

/-- Spec for C7 around `pathSpecC7`. -/
def specC7 : Spec :=
  { ipFilter := none, cacheSize := 100,
    rules := [{ host := "", hostRegexp := none, ipFilter := some allowAll,
                paths := [pathSpecC7] }] }

/-- `GET /headerAllMatch` where only the first of the two header
predicates matches (`AllMatch: false`). -/
def reqC7 : Request :=
  { host := "h", method := "GET", urlPath := "/headerAllMatch",
    headers := [("X-Test", "test1"), ("AllMatch", "false")], realIP := "1.1.1.1" }

/-- The configuration path of claim C9: literal path `/abc`, a nonempty
rewrite target `/xyz`, and no path regexp. -/
def pathSpecC9 : Path :=
  { basePath with
    path := "/abc", rewriteTarget := "/xyz", backend := "b",
    ipFilter := some allowAll }

/-- Spec for C9 around `pathSpecC9`. -/
def specC9 : Spec :=
  { ipFilter := none, cacheSize := 100,
    rules := [{ host := "h", hostRegexp := none, ipFilter := some allowAll,
                paths := [pathSpecC9] }] }

/-- `GET http://h/abc`. -/
def reqC9 : Request :=
  { host := "h", method := "GET", urlPath := "/abc", headers := [], realIP := "1.1.1.1" }

/-- A bare instance with an enabled cache and no rules, for exercising
the cache operations directly. -/
def miCacheOnly : MuxInstance :=
  { ipFilter := none, ipFilterChan := none, cacheEnabled := true, rules := [] }

/-- Request `(Host = a.comG, Method = ET, Path = /p)`. -/
def reqC10a : Request :=
  { host := "a.comG", method := "ET", urlPath := "/p", headers := [], realIP := "1.1.1.1" }

/-- Request `(Host = a.com, Method = GET, Path = /p)`: a different
tuple whose concatenated cache key coincides with `reqC10a`'s. -/
def reqC10b : Request :=
  { host := "a.com", method := "GET", urlPath := "/p", headers := [], realIP := "1.1.1.1" }

/-! ### Claim theorems: evaluations at the failing inputs -/

/-- Claim C1: the claim says that a spec with rule `host: www.megaease.com`
and a single unconstrained path `/abc` answers
`GET http://www.megaease.com:8080/abc` with the OK verdict for
`abc-pipeline`.  On the code this is false twice over: the rule has no
own ip filter, so `search` dereferences the nil receiver at the
rule-level gate (mux.go 932); and even with an allow-everything rule
filter added, `matchHeaders` fails on the empty predicate list, so the
first `search` returns BadRequest (400), not OK. -/
theorem c1_claimed_scenario_is_not_ok :
    search (reloadRules specC1) [] reqC1 = .error .nilPointerDeref ∧
    searchCode (reloadRules specC1Guarded) [] reqC1 = .ok (some 400) :=
  ⟨rfl, rfl⟩

/-- Claim C2: the claim says two consecutive `search` calls on a request whose
chosen path has no header predicates yield identical verdicts, the
second from the cache.  On the code the first call returns BadRequest
(while storing the OK route in the cache) and the second returns OK from
the cache: the verdicts differ. -/
theorem c2_consecutive_searches_differ :
    twoSearchCodes (reloadRules specC2) [] reqC2 = .ok (some 400, some 200) :=
  rfl

/-- Claim C3: the claim says a cache hit on a stored OK route whose path has a
non-nil IPFilterChain is returned iff the chain allows the client IP.
On the code the hit consults only the path's own filter (mux.go 917):
after warming the cache from 1.1.1.1, a request from 9.9.9.9 - which
the path's inherited chain denies - is still answered OK. -/
theorem c3_cache_hit_ignores_chain :
    searchAfterCode (reloadRules specC3) reqC3a reqC3b = .ok (some 200) ∧
    (reloadRules specC3).rules = [newMuxRule (newIPFilterChain none none)
      { host := "h", hostRegexp := none,
        ipFilter := some { allowIPs := [], blockIPs := ["9.9.9.9"] },
        paths := [{ basePath with
                    path := "/abc", backend := "b",
                    ipFilter := some allowAll }] } [pathC3]] ∧
    chainAllow pathC3.ipFilterChain "9.9.9.9" = false :=
  ⟨rfl, rfl, rfl⟩

/-- Claim C4: the claim says search and dispatch always terminate with one of
the five verdicts and never reach a nil-pointer use.  On the code, a
rule without its own ip filter makes `search` dereference nil at
mux.go 932, and a matching header-predicate path with no preceding
header-free sibling makes `search` return a nil route (mux.go 961)
which `serveHTTP` then dereferences (mux.go 848). -/
theorem c4_nil_pointer_uses_reachable :
    search (reloadRules specC4a) [] reqC4 = .error .nilPointerDeref ∧
    (search (reloadRules specC4b) [] reqC4).map (fun rc => rc.1) = .ok none ∧
    dispatch (reloadRules specC4b) [] ["b"] reqC4 = .error .nilPointerDeref :=
  ⟨rfl, rfl, rfl⟩

/-- Claim C6: the claim says an OK verdict produced on a cache miss references
the first path whose path, method, header and IP predicates all pass.
On the code the returned route variable is stale: the request matches
the second sibling (header `X-T: v`), but `search` returns the OK route
of the first sibling, whose own IP filter denies the client 1.2.3.4. -/
theorem c6_ok_references_ip_denied_path :
    searchCode (reloadRules specC6) [] reqC6 = .ok (some 200) ∧
    searchBackend (reloadRules specC6) [] reqC6 = .ok (some "p1") ∧
    allowIP (newIPFilter (some { allowIPs := ["7.7.7.7"], blockIPs := [] }))
      reqC6.realIP = false :=
  ⟨rfl, rfl, rfl⟩

/-- Claim C7: the claim says a path with `match_all_header = true` whose
predicates do not all match yields BadRequest.  On the code the compiled
`MuxPath` does not even retain the flag (compiling with the flag set and
cleared yields the same path), `matchHeaders` passes on the single
matching predicate, and `search` then returns a nil route - neither OK
nor BadRequest. -/
theorem c7_match_all_header_ignored :
    newMuxPath ruleChainC3 pathSpecC7 =
      newMuxPath ruleChainC3 { pathSpecC7 with
                               matchAllHeader := false } ∧
    (newMuxPath ruleChainC3 pathSpecC7).matchHeaders reqC7 = true ∧
    (search (reloadRules specC7) [] reqC7).map (fun rc => rc.1) = .ok none :=
  ⟨rfl, rfl, rfl⟩

/-- Claim C9 (counterexample): the claim says a path matched via its literal
`path` with a nonempty `rewrite_target` and no regex has its whole path
replaced by the target.  On the code no rewrite happens without a
compiled regex: the handoff for `/abc` keeps the path `/abc` although
the matched path carries `rewrite_target = /xyz`. -/
theorem c9_literal_rewrite_does_not_happen :
    dispatchAfter (reloadRules specC9) ["b"] reqC9 reqC9 =
      .ok (.handoff "b" "/abc") ∧
    pathSpecC9.rewriteTarget = "/xyz" ∧ pathSpecC9.pathRegexp = none ∧
    ("/abc" : String) ≠ "/xyz" :=
  ⟨rfl, rfl, rfl, by decide⟩

/-- Claim C10 (counterexample): the claim says two requests differing in some
component of (Host, Method, Path) never share a cache entry.  The key is
the separator-free concatenation of the three components, so the
distinct tuples (a.comG, ET, /p) and (a.com, GET, /p) collide: a verdict
stored for the first is returned by the probe for the second. -/
theorem c10_distinct_tuples_share_entry :
    reqC10a.host ≠ reqC10b.host ∧ reqC10a.method ≠ reqC10b.method ∧
    getCacheRoute miCacheOnly (putRouteToCache miCacheOnly [] reqC10a notFound)
      reqC10b = some notFound :=
  ⟨by decide, by decide, rfl⟩

/-! ### Cache discipline of the scan (claim C5) -/

/-- The cache component of a scan outcome, whichever way the loop
ended. -/
def scanOutCache : ScanState → Cache
  | .inl (_, c) => c
  | .inr (_, _, _, c) => c

/-- A cache entry present after a `putRouteToCache` was already present
or is the route just stored. -/
theorem mem_putRouteToCache {mi : MuxInstance} {cache : Cache} {req : Request}
    {rt : Route} {k : String} {r : Route}
    (h : (k, r) ∈ putRouteToCache mi cache req rt) :
    (k, r) ∈ cache ∨ r = rt := by
  unfold putRouteToCache at h
  split at h
  · rcases List.mem_cons.mp h with h | h
    · right
      exact congrArg Prod.snd h
    · left
      exact h
  · left
    exact h

/-- A cache entry present after a `cacheStep` was already present or is
an OK route (code 200). -/
theorem mem_cacheStep {mi : MuxInstance} {req : Request} {p : MuxPath}
    {r0 : Option Route} {cache : Cache} {k : String} {r : Route}
    (h : (k, r) ∈ (cacheStep mi req p r0 cache).2) :
    (k, r) ∈ cache ∨ r.code = 200 := by
  unfold cacheStep at h
  split at h
  · rcases mem_putRouteToCache h with h | h
    · exact Or.inl h
    · right
      rw [h]
  · exact Or.inl h

/-- Through the path loop, the cache only acquires OK routes. -/
theorem scanPaths_cache_mem (mi : MuxInstance) (req : Request) (ip : String) :
    ∀ (ps : List MuxPath) (hm mm : Bool) (r0 : Option Route) (cache : Cache)
      (out : ScanState), scanPaths mi req ip ps hm mm r0 cache = .ok out →
      ∀ k rt, (k, rt) ∈ scanOutCache out → (k, rt) ∈ cache ∨ rt.code = 200 := by
  intro ps
  induction ps with
  | nil =>
    intro hm mm r0 cache out h k rt hmem
    cases h
    exact Or.inl hmem
  | cons p rest ih =>
    intro hm mm r0 cache out h k rt hmem
    unfold scanPaths at h
    split at h
    · exact ih hm mm r0 cache out h k rt hmem
    · split at h
      · exact ih hm true r0 cache out h k rt hmem
      · split at h
        · rcases ih true mm _ _ out h k rt hmem with h' | h'
          · exact mem_cacheStep h'
          · exact Or.inr h'
        · split at h
          · cases h
            exact mem_cacheStep hmem
          · cases h
            exact mem_cacheStep hmem

/-- Through the rule loop, the cache only acquires OK routes. -/
theorem scanRules_cache_mem (mi : MuxInstance) (req : Request) (ip : String) :
    ∀ (rs : List MuxRule) (hm mm : Bool) (r0 : Option Route) (cache : Cache)
      (out : ScanState), scanRules mi req ip rs hm mm r0 cache = .ok out →
      ∀ k rt, (k, rt) ∈ scanOutCache out → (k, rt) ∈ cache ∨ rt.code = 200 := by
  intro rs
  induction rs with
  | nil =>
    intro hm mm r0 cache out h k rt hmem
    cases h
    exact Or.inl hmem
  | cons rule rest ih =>
    intro hm mm r0 cache out h k rt hmem
    unfold scanRules at h
    split at h
    · exact ih hm mm r0 cache out h k rt hmem
    · split at h
      · exact Except.noConfusion h
      · rename_i f _
        split at h
        · cases h
          exact Or.inl hmem
        · split at h
          · exact Except.noConfusion h
          · rename_i out2 heq
            cases h
            exact scanPaths_cache_mem mi req ip rule.paths hm mm r0 cache
              (.inl out2) heq k rt hmem
          · rename_i hm' mm' r' cache' heq
            rcases ih hm' mm' r' cache' out h k rt hmem with h' | h'
            · exact scanPaths_cache_mem mi req ip rule.paths hm mm r0 cache
                (.inr (hm', mm', r', cache')) heq k rt (by exact h')
            · exact Or.inr h'

/-- Across one `search` call, the cache only acquires entries with
status 200, 405 or 404: BadRequest and Forbidden are never stored. -/
theorem search_cache_mem (mi : MuxInstance) (cache : Cache) (req : Request)
    (res : Option Route) (cache' : Cache)
    (h : search mi cache req = .ok (res, cache')) :
    ∀ k rt, (k, rt) ∈ cache' →
      (k, rt) ∈ cache ∨ rt.code = 200 ∨ rt.code = 405 ∨ rt.code = 404 := by
  intro k rt hmem
  unfold search at h
  split at h
  · split at h
    · cases h
      exact Or.inl hmem
    · split at h
      · exact Except.noConfusion h
      · split at h
        · cases h
          exact Or.inl hmem
        · split at h
          · exact Except.noConfusion h
          · split at h
            · cases h
              exact Or.inl hmem
            · cases h
              exact Or.inl hmem
  · split at h
    · cases h
      exact Or.inl hmem
    · split at h
      · exact Except.noConfusion h
      · cases h
        rcases scanRules_cache_mem mi req req.realIP mi.rules false false none
          cache _ (by assumption) k rt (by exact hmem) with h' | h'
        · exact Or.inl h'
        · exact Or.inr (Or.inl h')
      · rename_i hm mm r' cacheX heq
        have base : ∀ k' rt', (k', rt') ∈ cacheX →
            (k', rt') ∈ cache ∨ rt'.code = 200 := by
          intro k' rt' hm'
          exact scanRules_cache_mem mi req req.realIP mi.rules false false none
            cache (.inr (hm, mm, r', cacheX)) heq k' rt' hm'
        split at h
        · cases h
          rcases base k rt hmem with h' | h'
          · exact Or.inl h'
          · exact Or.inr (Or.inl h')
        · split at h
          · cases h
            rcases mem_putRouteToCache hmem with h' | h'
            · rcases base k rt h' with h2 | h2
              · exact Or.inl h2
              · exact Or.inr (Or.inl h2)
            · rw [h']
              exact Or.inr (Or.inr (Or.inl rfl))
          · cases h
            rcases mem_putRouteToCache hmem with h' | h'
            · rcases base k rt h' with h2 | h2
              · exact Or.inl h2
              · exact Or.inr (Or.inl h2)
            · rw [h']
              exact Or.inr (Or.inr (Or.inr rfl))

/-- When the rule/path scan falls through without selecting a path,
`search` resolves the flags in the source's order: header mismatch
first (BadRequest, nothing stored), then method mismatch
(MethodNotAllowed, stored), else NotFound (stored). -/
theorem search_fallback_order (mi : MuxInstance) (cache : Cache) (req : Request)
    (hm mm : Bool) (r0 : Option Route) (cache' : Cache)
    (hmiss : getCacheRoute mi cache req = none)
    (hip : allowIP mi.ipFilter req.realIP = true)
    (hscan : scanRules mi req req.realIP mi.rules false false none cache =
      .ok (.inr (hm, mm, r0, cache'))) :
    search mi cache req = .ok
      (some (if hm then badRequest else if mm then methodNotAllowed else notFound),
       if hm then cache'
       else putRouteToCache mi cache' req (if mm then methodNotAllowed else notFound)) := by
  unfold search
  rw [hmiss, hip, hscan]
  cases hm <;> cases mm <;> simp

/-- Claim C5: when the rule/path scan selects no path, `search` returns
BadRequest if the scan recorded a header mismatch, without storing it;
otherwise MethodNotAllowed if it recorded a method mismatch, storing it;
otherwise NotFound, storing it.  Moreover, across any `search` call the
cache only acquires entries with status 200, 405 or 404: Forbidden and
BadRequest are never stored on any return path. -/
theorem c5_fallbacks_and_cache_discipline :
    (∀ (mi : MuxInstance) (cache : Cache) (req : Request) (hm mm : Bool)
       (r0 : Option Route) (cache' : Cache),
       getCacheRoute mi cache req = none →
       allowIP mi.ipFilter req.realIP = true →
       scanRules mi req req.realIP mi.rules false false none cache =
         .ok (.inr (hm, mm, r0, cache')) →
       search mi cache req = .ok
         (some (if hm then badRequest else if mm then methodNotAllowed else notFound),
          if hm then cache'
          else putRouteToCache mi cache' req
            (if mm then methodNotAllowed else notFound))) ∧
    (∀ (mi : MuxInstance) (cache : Cache) (req : Request) (res : Option Route)
       (cache' : Cache), search mi cache req = .ok (res, cache') →
       ∀ k rt, (k, rt) ∈ cache' →
         (k, rt) ∈ cache ∨ rt.code = 200 ∨ rt.code = 405 ∨ rt.code = 404) :=
  ⟨fun mi cache req hm mm r0 cache' h1 h2 h3 =>
     search_fallback_order mi cache req hm mm r0 cache' h1 h2 h3,
   fun mi cache req res cache' h => search_cache_mem mi cache req res cache' h⟩

/-- Witness for C5: a cache-enabled instance with no rules answers
NotFound and stores it, and the stored entry's status is among
200/405/404. -/
theorem c5_witness :
    search miCacheOnly [] reqC2 = .ok (some notFound, [(cacheKey reqC2, notFound)]) ∧
    (((cacheKey reqC2, notFound) ∈ ([] : Cache)) ∨ notFound.code = 200 ∨
      notFound.code = 405 ∨ notFound.code = 404) := by
  have h1 := c5_fallbacks_and_cache_discipline.1 miCacheOnly [] reqC2
    false false none [] rfl rfl rfl
  have h1' : search miCacheOnly [] reqC2 =
      .ok (some notFound, [(cacheKey reqC2, notFound)]) := by
    simpa [putRouteToCache, miCacheOnly] using h1
  have h2 := c5_fallbacks_and_cache_discipline.2 miCacheOnly [] reqC2
    (some notFound) [(cacheKey reqC2, notFound)] h1'
    (cacheKey reqC2) notFound (List.mem_singleton.mpr rfl)
  exact ⟨h1', h2⟩

/-- The filter compiled from an optional child spec, as a list: empty
when the spec is absent. -/
def childFilters : Option IPFilterSpec → List IPFilter
  | none => []
  | some s => [ipfilterNew s]

/-- Claim C8: `newIPFilterChain` produces exactly the parent's filters
(empty when the parent is nil) followed by the filter compiled from the
child spec when present, and it returns nil exactly when that
concatenation is empty. -/
theorem c8_chain_concatenation (p : Option IPFilters) (c : Option IPFilterSpec) :
    chainFilters (newIPFilterChain p c) = chainFilters p ++ childFilters c ∧
    (newIPFilterChain p c = none ↔ chainFilters p ++ childFilters c = []) := by
  have key : newIPFilterChain p c =
      (if (chainFilters p ++ childFilters c).isEmpty then none
       else some { filters := chainFilters p ++ childFilters c }) := by
    cases p <;> cases c <;> simp [newIPFilterChain, chainFilters, childFilters]
  rw [key]
  generalize chainFilters p ++ childFilters c = l
  by_cases hE : l = []
  · subst hE
    simp [chainFilters]
  · have hE' : l.isEmpty = false := by
      simpa [List.isEmpty_iff] using hE
    simp [hE', chainFilters, hE]

/-- Claim C9 (amended): after `search` yields an OK route whose backend is
registered, the dispatcher hands off with the request path replaced by
the regex substitution exactly when the matched path has both a
compiled regex and a nonempty rewrite target, and with the path
unchanged in every other case - including literal-path or prefix
matches that carry a rewrite target. -/
theorem c9_amended_rewrite_only_with_regex :
    (∀ (mi : MuxInstance) (cache : Cache) (handlers : List String)
       (req : Request) (p : MuxPath) (cache' : Cache),
       search mi cache req = .ok (some { code := 200, path := some p }, cache') →
       handlers.contains p.backend = true →
       dispatch mi cache handlers req =
         .ok (.handoff p.backend (rewrittenPath p req.urlPath))) ∧
    (∀ (p : MuxPath) (s : String), p.pathRE = none ∨ p.rewriteTarget = "" →
       rewrittenPath p s = s) := by
  constructor
  · intro mi cache handlers req p cache' h hb
    have hb' : p.backend ∈ handlers := by simpa using hb
    unfold dispatch
    rw [h]
    simp [hb, hb']
  · intro p s h
    unfold rewrittenPath
    rcases h with h | h
    · simp [h]
    · simp [h]

/-- The abstract compiled regex `/([a-z]+)` with rewrite template
`/1$1`: on a path `/x...` the substitution yields `/1` followed by the
matched letters. -/
def reW : GoRegexp :=
  { matchString := fun _ => true,
    replaceAllString := fun s _ => String.mk ('/' :: '1' :: s.toList.drop 1) }

/-- A handcrafted compiled path carrying `reW` and rewrite target
`/1$1`, with no filters, for exercising the rewrite step. -/
def pW9 : MuxPath :=
  { ipFilter := none, ipFilterChain := none, path := "", pathPrefix := "",
    pathRE := some reW, methods := [], rewriteTarget := "/1$1", backend := "b",
    headers := [] }

/-- `GET /abz`. -/
def reqW9 : Request :=
  { host := "h", method := "GET", urlPath := "/abz", headers := [], realIP := "1" }

/-- A cache already holding the OK route for `pW9` under `reqW9`'s key. -/
def cacheW9 : Cache := [(cacheKey reqW9, { code := 200, path := some pW9 })]

/-- Witness for the amended C9: the handoff rewrites `/abz` to `/1abz`
through the regex substitution. -/
theorem c9_amended_witness :
    dispatch miCacheOnly cacheW9 ["b"] reqW9 = .ok (.handoff "b" "/1abz") := by
  have h := c9_amended_rewrite_only_with_regex.1 miCacheOnly cacheW9 ["b"]
    reqW9 pW9 cacheW9 rfl rfl
  simpa [rewrittenPath, reW, pW9, reqW9] using h

/-- Claim C10 (amended): the cache is keyed by the separator-free
concatenation `Host ++ Method ++ Path`; a verdict stored for one
request is invisible to any request whose concatenated key differs, and
two requests share an entry exactly when their concatenations agree
(distinct tuples with equal concatenation do collide, see the
counterexample). -/
theorem c10_amended_distinct_keys_isolated (mi : MuxInstance) (cache : Cache)
    (r1 r2 : Request) (v : Route) (h : cacheKey r1 ≠ cacheKey r2) :
    getCacheRoute mi (putRouteToCache mi cache r1 v) r2 =
      getCacheRoute mi cache r2 := by
  unfold getCacheRoute putRouteToCache
  split
  · simp only [List.find?]
    rw [show (cacheKey r1 == cacheKey r2) = false from beq_eq_false_iff_ne.mpr h]
  · rfl

/-- Witness for the amended C10: storing under `(a.comG, ET, /p)` leaves
the probe for `(h, GET, /abc)` - a different concatenated key -
unaffected. -/
theorem c10_amended_witness :
    getCacheRoute miCacheOnly (putRouteToCache miCacheOnly [] reqC10a notFound)
      reqC9 = getCacheRoute miCacheOnly [] reqC9 :=
  c10_amended_distinct_keys_isolated miCacheOnly [] reqC10a reqC9 notFound
    (by decide)

end EG
